import Mathlib

/-!
Verification development for the uffd demand-paging demo (`src/main.rs`).

The program creates a memfd-backed region with two mappings — a directly
writable "shadow" mapping and a userfaultfd-registered "guarded" mapping —
spawns a monitor thread running `handle_uffd_events`, writes bytes through
the shadow mapping, and reads through the guarded mapping to trigger a
minor fault.

The monitor loop (`handle_uffd_events`) is embedded below as a pure step
function over an environment record (`WakeInput`) that supplies the results
of the system calls performed during one loop iteration: the `poll` result,
the revents flags, the `read_event` result, the `zeropage` result, and the
successive results of the `uffd_continue` calls inside the retry loop.
The kernel-side semantics of the resolution ioctls (which are not code of
this repository) are modelled from the spec in the memory model further down.
-/

namespace Uffd

/-- Fault classes of a pagefault event, as in the `userfaultfd` crate's
`FaultKind` (`Missing` and `Minor`). -/
inductive FaultKind
  | Missing
  | Minor
deriving DecidableEq, Repr

/-- Access direction of a pagefault event (`ReadWrite` in the crate). -/
inductive ReadWrite
  | Read
  | Write
deriving DecidableEq, Repr

/-- Events readable from the userfaultfd descriptor, as in the crate's
`Event` enum; addresses are byte addresses modelled as `Nat`. -/
inductive Event
  | Pagefault (kind : FaultKind) (rw : ReadWrite) (addr : Nat)
  | Remove (start finish : Nat)
  | Unmap (start finish : Nat)
  | Remap (src dst len : Nat)
  | Fork
deriving DecidableEq, Repr

/-- Errors that `uffd_continue` can return; the spec's resolution-error
taxonomy distinguishes the transient `Busy` from the permanent `Invalid`. -/
inductive ContinueError
  | Busy
  | Invalid
deriving DecidableEq, Repr

/-- Observable operations performed by one iteration of the monitor loop,
in program order: the leading log line, the `poll` wait, the `read_event`
call, the per-event log lines, and the resolution ioctls with their
arguments. -/
inductive Action
  | logChecking
  | pollWait
  | readEvent
  | logPagefault
  | logRemove
  | logContinueFailed (e : ContinueError)
  | zeropage (addr len : Nat) (wake : Bool)
  | uffdContinue (addr len : Nat) (wake : Bool)
deriving DecidableEq, Repr

/-- The distinct panic sites of `handle_uffd_events`: the `unwrap` on the
`poll` result, the `unwrap` on `revents()`, the explicit
`panic!("poll returned POLLERR")`, the `expect("Failed to read uffd_msg")`
on `read_event`, the `unwrap` on `zeropage`, and the catch-all
`panic!("Unexpected event: ...")`. -/
inductive PanicMsg
  | pollUnwrapErr
  | reventsUnwrapNone
  | pollReturnedPollerr
  | failedToReadUffdMsg
  | zeropageUnwrapErr
  | unexpectedEvent
deriving DecidableEq, Repr

/-- How one iteration of the monitor loop ends. `next` goes back to the top
of the `loop`; `panicked` models a Rust panic (from `unwrap`, `expect` or
`panic!`); `returned` models a clean return out of the loop — no code path
of `handle_uffd_events` produces it; `diverged` marks that the
`uffd_continue` retry loop did not succeed within the supplied finite
oracle of call results. -/
inductive Outcome
  | next
  | panicked (msg : PanicMsg)
  | returned
  | diverged
deriving DecidableEq, Repr

/-- The revents flags returned by `PollFd::revents()`; only `POLLERR` is
inspected by the code. -/
structure ReventFlags where
  pollerr : Bool
deriving DecidableEq, Repr

/-- Environment of one iteration of the monitor loop: results of each
fallible system interaction the iteration may perform. -/
structure WakeInput where
  /-- result of `poll(&mut [pollfd], -1)` -/
  pollResult : Except Unit Nat
  /-- result of `pollfd.revents()` (None when the bits are unrecognized) -/
  revents : Option ReventFlags
  /-- result of `uffd.read_event()` -/
  readResult : Except Unit (Option Event)
  /-- whether `uffd.zeropage(...)` succeeds -/
  zeropageOk : Bool
  /-- successive results of the `uffd_continue` calls in the retry loop -/
  contResults : List (Except ContinueError Unit)

/-- Configuration fixed for the monitor thread: `mem_size` and `vm_addr`
as passed to `handle_uffd_events`. -/
structure MonitorConfig where
  memSize : Nat
  vmAddr : Nat
deriving DecidableEq, Repr

/-- The `while let Err(err) = uffd.uffd_continue(addr, mem_size as _, true)`
retry loop: each failing call is logged and retried; the loop exits only on
a successful call. An exhausted oracle means the loop is still retrying
(`diverged`). -/
def retryContinue (addr len : Nat) :
    List (Except ContinueError Unit) → List Action × Outcome
  | [] => ([], .diverged)
  | .ok _ :: _ => ([.uffdContinue addr len true], .next)
  | .error e :: rest =>
      (.uffdContinue addr len true :: .logContinueFailed e ::
         (retryContinue addr len rest).1,
       (retryContinue addr len rest).2)

/-- The `match event` dispatch of `handle_uffd_events`: `Pagefault` with
`Missing` kind calls `zeropage(addr, mem_size, true).unwrap()`; `Minor`
kind enters the `uffd_continue` retry loop; `Remove` only logs; every other
event (including `Ok(None)` from `read_event`) hits the catch-all
`panic!`. -/
def dispatchEvent (cfg : MonitorConfig) (w : WakeInput) :
    Option Event → List Action × Outcome
  | some (.Pagefault kind _ addr) =>
      if kind = .Missing then
        if w.zeropageOk then
          ([.logPagefault, .zeropage addr cfg.memSize true], .next)
        else
          ([.logPagefault, .zeropage addr cfg.memSize true],
           .panicked .zeropageUnwrapErr)
      else if kind = .Minor then
        (.logPagefault :: (retryContinue addr cfg.memSize w.contResults).1,
         (retryContinue addr cfg.memSize w.contResults).2)
      else
        ([.logPagefault], .next)
  | some (.Remove _ _) => ([.logRemove], .next)
  | _ => ([], .panicked .unexpectedEvent)

/-- One iteration of the `loop` in `handle_uffd_events`: print "Checking",
`poll` (unwrapped), `revents()` (unwrapped), panic on `POLLERR`, then
`read_event` (expected) and the event dispatch. -/
def monitorStep (cfg : MonitorConfig) (w : WakeInput) : List Action × Outcome :=
  match w.pollResult with
  | .error _ =>
      ([.logChecking, .pollWait], .panicked .pollUnwrapErr)
  | .ok _ =>
      match w.revents with
      | none =>
          ([.logChecking, .pollWait], .panicked .reventsUnwrapNone)
      | some r =>
          if r.pollerr then
            ([.logChecking, .pollWait], .panicked .pollReturnedPollerr)
          else
            match w.readResult with
            | .error _ =>
                ([.logChecking, .pollWait, .readEvent],
                 .panicked .failedToReadUffdMsg)
            | .ok ev =>
                (.logChecking :: .pollWait :: .readEvent ::
                   (dispatchEvent cfg w ev).1,
                 (dispatchEvent cfg w ev).2)

/-- Number of `read_event` calls recorded in a trace. -/
def countReads : List Action → Nat
  | [] => 0
  | .readEvent :: rest => countReads rest + 1
  | _ :: rest => countReads rest

/-- Number of `uffd_continue` calls recorded in a trace. -/
def countContinues : List Action → Nat
  | [] => 0
  | .uffdContinue _ _ _ :: rest => countContinues rest + 1
  | _ :: rest => countContinues rest

/-- Whether an action is a resolution ioctl (`zeropage` or
`uffd_continue`), as opposed to waiting, reading or logging. -/
def isResolutionAction : Action → Bool
  | .zeropage _ _ _ => true
  | .uffdContinue _ _ _ => true
  | _ => false

/-- The events the dispatcher handles without panicking: pagefaults and
removals — the two non-catch-all arms of the `match`. -/
def isPlannedEvent : Option Event → Bool
  | some (.Pagefault _ _ _) => true
  | some (.Remove _ _) => true
  | _ => false

/-! ## Memory model of the dual mapping

The backing store, its shadow mapping and its guarded mapping are kernel
objects, not code of this repository; the model below follows the spec's
contracts for them (§4.1, §4.2, §4.5): both mappings view the same backing
bytes, the guarded mapping raises a fault on first touch of a page not yet
marked present, the fault kind is `Minor` when the touched page already has
staged backing content (it was written through the shadow mapping) and
`Missing` otherwise, and a continue resolution marks a range present so
that guarded reads return the staged bytes. Offsets are relative to the
region base; bytes are `Nat` values. -/

/-- Page size of the platform, 4096 bytes (`mem_size = 4096 * 4` in
`main`). -/
def pageSize : Nat := 4096

/-- Modelled from the spec: state of one backing store with its two
mappings. `backing` is the byte content of the backing object; `popPage`
tells which backing pages have been populated by a shadow write; then
`mappedPage` tells which pages are already present in the guarded
mapping. -/
structure MemState where
  backing : Nat → Nat
  popPage : Nat → Bool
  mappedPage : Nat → Bool

/-- A fresh, zero-initialized backing store with nothing populated and
nothing mapped (the state right after `create_uffd_mapping` and
`create_vm_mapping`). -/
def freshMem : MemState :=
  { backing := fun _ => 0, popPage := fun _ => false, mappedPage := fun _ => false }

/-- One byte written through the shadow mapping: updates the backing byte
and populates the containing page. -/
def writeByte (s : MemState) (off b : Nat) : MemState :=
  { s with
    backing := fun i => if i = off then b else s.backing i,
    popPage := fun p => if p = off / pageSize then true else s.popPage p }

/-- `write_to_pointer(mem_addr, data)` — a byte-by-byte write of `data`
through the shadow mapping starting at offset `off`. -/
def shadowWrite : MemState → Nat → List Nat → MemState
  | s, _, [] => s
  | s, off, b :: rest => shadowWrite (writeByte s off b) (off + 1) rest

/-- Modelled from the spec: the fault (if any) raised by touching offset
`off` through the guarded mapping. A present page is ordinary memory (no
fault); a populated-but-unmapped page raises a `Minor` fault; an
unpopulated page raises a `Missing` fault. -/
def guardedTouch (s : MemState) (off : Nat) : Option FaultKind :=
  if s.mappedPage (off / pageSize) then none
  else if s.popPage (off / pageSize) then some .Minor
  else some .Missing

/-- Modelled from the spec: a successful `continueRange(start, len)`
resolution atomically marks the covered pages present in the guarded
mapping, exposing the bytes already staged via the shadow mapping. -/
def continueRange (s : MemState) (start len : Nat) : MemState :=
  { s with
    mappedPage := fun p =>
      if start / pageSize ≤ p ∧ p < (start + len) / pageSize then true
      else s.mappedPage p }

/-- `read_from_pointer(vm_addr + off, n)` — reading `n` bytes through the
guarded mapping starting at offset `off`; `none` when some touched page is
not yet present (the reading thread would block on a fault). -/
def guardedReadBytes (s : MemState) : Nat → Nat → Option (List Nat)
  | _, 0 => some []
  | off, n + 1 =>
      if s.mappedPage (off / pageSize) then
        (guardedReadBytes s (off + 1) n).map (s.backing off :: ·)
      else none

/-! ## Startup and thread-attribution model of `main`

`main` creates the backing store and both mappings, builds the uffd with a
fixed feature set, registers the guarded range with a fixed mode set,
spawns the monitor thread, writes `[1,2,3]` through the shadow mapping and
reads 3 bytes through the guarded mapping. `handle_uffd_events` starts by
creating a second memfd with its own mapping (line 100), which it never
touches again. -/

/-- Feature flags requestable from the uffd builder (`FeatureFlags` in the
crate), restricted to the ones named by the source and the spec. -/
inductive FeatureFlag
  | EventRemove
  | EventRemap
  | EventFork
  | EventUnmap
  | MissingShmem
  | MinorShmem
  | PagefaultFlagWP
deriving DecidableEq, Repr

/-- Register-mode flags (`RegisterMode` in the crate). -/
inductive RegisterModeFlag
  | Missing
  | ModeMinor
  | WriteProtect
deriving DecidableEq, Repr

/-- The feature flags `main` passes to `require_features` (source lines
26–33). -/
def requiredFeatures : List FeatureFlag :=
  [.EventRemove, .EventRemap, .EventFork, .EventUnmap,
   .MissingShmem, .MinorShmem, .PagefaultFlagWP]

/-- The register modes `main` passes to `register_with_mode` (source line
40). -/
def registerModes : List RegisterModeFlag :=
  [.Missing, .ModeMinor, .WriteProtect]

/-- Modelled from the spec: `UffdBuilder::create` fails with
`UnsupportedFeatureError` when the running kernel lacks one of the
required features. -/
def createUffd (supported : FeatureFlag → Bool) : Option Unit :=
  if requiredFeatures.all supported then some () else none

/-- Steps of `main` in program order. -/
inductive MainAction
  | createBacking
  | mapShadow
  | mapGuarded
  | uffdCreate
  | uffdRegister
  | spawnMonitor
  | shadowWriteAct
  | guardedReadAct
deriving DecidableEq, Repr

/-- Whether `main` runs to completion or panics at startup. -/
inductive StartupOutcome
  | started
  | panicked
deriving DecidableEq, Repr

/-- The sequence of steps `main` performs, given which features the kernel
supports and whether registration succeeds: `create().unwrap()` and
`register_with_mode(...).unwrap()` panic the process before the monitor is
spawned and before any consumer access to either mapping. -/
def mainRun (supported : FeatureFlag → Bool) (registerOk : Bool) :
    List MainAction × StartupOutcome :=
  let pre : List MainAction :=
    [.createBacking, .mapShadow, .mapGuarded, .uffdCreate]
  match createUffd supported with
  | none => (pre, .panicked)
  | some _ =>
      if registerOk then
        (pre ++ [.uffdRegister, .spawnMonitor,
                 .shadowWriteAct, .guardedReadAct], .started)
      else
        (pre ++ [.uffdRegister], .panicked)

/-- The two execution contexts of the program. -/
inductive ThreadId
  | mainThread
  | monitorThread
deriving DecidableEq, Repr

/-- The three mappings created during a run: the shadow and guarded
mappings of `main`'s memfd, and the private mapping of the second memfd
created inside `handle_uffd_events`. -/
inductive MappingId
  | shadowMapping
  | guardedMapping
  | monitorPrivateMapping
deriving DecidableEq, Repr

/-- A direct memory access through one of the mappings, attributed to the
thread that performs it. -/
structure MemAccess where
  thread : ThreadId
  target : MappingId
  isWrite : Bool
deriving DecidableEq, Repr

/-- Creation of a mapping, attributed to the creating thread:
`create_uffd_mapping` and `create_vm_mapping` run on the main thread
(lines 19–20); `handle_uffd_events` calls `create_uffd_mapping` again on
the monitor thread (line 100). -/
structure MappingCreation where
  thread : ThreadId
  mapping : MappingId
deriving DecidableEq, Repr

/-- The mapping creations of the run, in source order. -/
def runCreations : List MappingCreation :=
  [⟨.mainThread, .shadowMapping⟩,
   ⟨.mainThread, .guardedMapping⟩,
   ⟨.monitorThread, .monitorPrivateMapping⟩]

/-- The direct memory accesses of the run:
`write_to_pointer(mem_addr, &[1, 2, 3])` writes through the shadow mapping
on the main thread (line 56), and `read_from_pointer(vm_addr, 3)` reads
through the guarded mapping on the main thread (line 59). The monitor
thread performs no direct memory access: its resolutions are ioctls on the
uffd descriptor, and its private mapping is never touched after
creation. -/
def runAccesses : List MemAccess :=
  [⟨.mainThread, .shadowMapping, true⟩,
   ⟨.mainThread, .guardedMapping, false⟩]

/-- The (start, len) arguments of the `zeropage` calls recorded in a
trace. -/
def zeropageRanges : List Action → List (Nat × Nat)
  | [] => []
  | .zeropage a l _ :: rest => (a, l) :: zeropageRanges rest
  | _ :: rest => zeropageRanges rest

/-- The spec's enumeration of the feature flags registration requests
(spec §6). -/
def specFeatureFlags : List FeatureFlag :=
  [.EventRemove, .EventRemap, .EventFork, .EventUnmap,
   .MissingShmem, .MinorShmem, .PagefaultFlagWP]

/-- The spec's enumeration of the fault classes registration requests
(spec §6). -/
def specFaultClasses : List RegisterModeFlag :=
  [.Missing, .ModeMinor, .WriteProtect]

/-! ## Concrete run of the demo scenario

`mem_size = 4096 * 4 = 16384`; `vm_addr` is the base address of the
guarded mapping (any page-aligned value; a concrete one is fixed here).
The main thread writes `[1, 2, 3]` at offset 0 through the shadow mapping
and reads 3 bytes at offset 0 through the guarded mapping. -/

/-- A concrete base address for the guarded mapping in the demo run. -/
def demoVmAddr : Nat := 1048576

/-- The monitor configuration of the demo run: `mem_size = 16384`,
`vm_addr = demoVmAddr`. -/
def demoCfg : MonitorConfig := ⟨16384, demoVmAddr⟩

/-- Memory state after `write_to_pointer(mem_addr, &[1, 2, 3])`. -/
def demoMem1 : MemState := shadowWrite freshMem 0 [1, 2, 3]

/-- The wake the monitor gets when the main thread's guarded read at
offset 0 raises its fault: a readable channel delivering the `Minor`
pagefault at `vm_addr`, with the first `uffd_continue` call succeeding. -/
def demoWake : WakeInput :=
  { pollResult := .ok 1, revents := some ⟨false⟩,
    readResult := .ok (some (.Pagefault .Minor .Read demoVmAddr)),
    zeropageOk := true, contResults := [.ok ()] }

/-- Memory state after the monitor's successful
`uffd_continue(vm_addr, 16384, true)`, i.e. a continue resolution over
offsets `[0, 16384)` of the region. -/
def demoMem2 : MemState := continueRange demoMem1 0 16384

/-- A wake delivering a `Minor` pagefault whose first `uffd_continue`
result is the permanent `Invalid` error, followed by a success. -/
def invalidWake : WakeInput :=
  { pollResult := .ok 1, revents := some ⟨false⟩,
    readResult := .ok (some (.Pagefault .Minor .Write demoVmAddr)),
    zeropageOk := true, contResults := [.error .Invalid, .ok ()] }

/-- A wake delivering a `Missing` pagefault at one page past the region
base. -/
def missingWakeOff : WakeInput :=
  { pollResult := .ok 1, revents := some ⟨false⟩,
    readResult := .ok (some (.Pagefault .Missing .Read (demoVmAddr + 4096))),
    zeropageOk := true, contResults := [] }

/-- A wake delivering a `Minor` pagefault with a given list of
`uffd_continue` results. -/
def minorWake (addr : Nat) (results : List (Except ContinueError Unit)) :
    WakeInput :=
  { pollResult := .ok 1, revents := some ⟨false⟩,
    readResult := .ok (some (.Pagefault .Minor .Read addr)),
    zeropageOk := true, contResults := results }

/-- A wake delivering a `Remove` event for the registered range. -/
def removeWake : WakeInput :=
  { pollResult := .ok 1, revents := some ⟨false⟩,
    readResult := .ok (some (.Remove demoVmAddr (demoVmAddr + 16384))),
    zeropageOk := true, contResults := [] }

/-- A wake delivering a `Fork` event, one of the unplanned events. -/
def forkWake : WakeInput :=
  { pollResult := .ok 1, revents := some ⟨false⟩,
    readResult := .ok (some .Fork),
    zeropageOk := true, contResults := [] }

/-- A wake whose revents carry `POLLERR`. -/
def pollerrWake : WakeInput :=
  { pollResult := .ok 1, revents := some ⟨true⟩,
    readResult := .ok none,
    zeropageOk := true, contResults := [] }

/-- A wake whose `read_event` succeeds but yields no event. -/
def emptyReadWake : WakeInput :=
  { pollResult := .ok 1, revents := some ⟨false⟩,
    readResult := .ok none,
    zeropageOk := true, contResults := [] }

/-- The direct memory accesses of the run performed by a given thread. -/
def accessesBy (t : ThreadId) : List MemAccess :=
  runAccesses.filter (fun a => decide (a.thread = t))

/-- The direct memory accesses of the run that go through a given
mapping. -/
def accessesTo (m : MappingId) : List MemAccess :=
  runAccesses.filter (fun a => decide (a.target = m))

/-! ## Helper lemmas -/

/-- The retry loop never produces a clean return: it either reaches a
success (`next`) or is still retrying when the oracle runs out
(`diverged`). -/
lemma retryContinue_snd (addr len : Nat)
    (o : List (Except ContinueError Unit)) :
    (retryContinue addr len o).2 = .next ∨
      (retryContinue addr len o).2 = .diverged := by
  induction o with
  | nil => simp [retryContinue]
  | cons x rest ih =>
      cases x with
      | ok v => simp [retryContinue]
      | error e => simpa [retryContinue] using ih

/-- The retry loop performs no `read_event` call. -/
lemma retryContinue_countReads (addr len : Nat)
    (o : List (Except ContinueError Unit)) :
    countReads (retryContinue addr len o).1 = 0 := by
  induction o with
  | nil => simp [retryContinue, countReads]
  | cons x rest ih =>
      cases x with
      | ok v => simp [retryContinue, countReads]
      | error e => simpa [retryContinue, countReads] using ih

/-- On an oracle of failures followed by one success the retry loop
reaches the success, with one `uffd_continue` call per oracle entry. -/
lemma retryContinue_errs_then_ok (addr len : Nat)
    (errs : List ContinueError) :
    (retryContinue addr len (errs.map Except.error ++ [Except.ok ()])).2 =
        .next ∧
      countContinues
        (retryContinue addr len (errs.map Except.error ++ [Except.ok ()])).1 =
        errs.length + 1 := by
  induction errs with
  | nil => simp [retryContinue, countContinues]
  | cons e rest ih =>
      refine ⟨by simpa [retryContinue] using ih.1, ?_⟩
      simpa [retryContinue, countContinues] using ih.2

/-- The event dispatcher never produces a clean return, and performs no
`read_event` call of its own. -/
lemma dispatchEvent_spec (cfg : MonitorConfig) (w : WakeInput)
    (ev : Option Event) :
    ((dispatchEvent cfg w ev).2 = .next ∨
       (∃ m, (dispatchEvent cfg w ev).2 = .panicked m) ∨
       (dispatchEvent cfg w ev).2 = .diverged) ∧
      countReads (dispatchEvent cfg w ev).1 = 0 := by
  match ev with
  | none => simp [dispatchEvent, countReads]
  | some (.Pagefault kind rw addr) =>
      cases kind with
      | Missing =>
          cases hz : w.zeropageOk <;>
            simp [dispatchEvent, countReads, hz]
      | Minor =>
          refine ⟨?_, ?_⟩
          · have := retryContinue_snd addr cfg.memSize w.contResults
            rcases this with h | h <;> simp [dispatchEvent, h]
          · simpa [dispatchEvent, countReads] using
              retryContinue_countReads addr cfg.memSize w.contResults
  | some (.Remove a b) => simp [dispatchEvent, countReads]
  | some (.Unmap a b) => simp [dispatchEvent, countReads]
  | some (.Remap a b l) => simp [dispatchEvent, countReads]
  | some .Fork => simp [dispatchEvent, countReads]

/-- `continueRange` leaves the backing bytes unchanged. -/
lemma continueRange_backing (s : MemState) (start len : Nat) :
    (continueRange s start len).backing = s.backing := rfl

/-- `continueRange` marks every covered page present. -/
lemma continueRange_mappedPage (s : MemState) (start len p : Nat)
    (h1 : start / pageSize ≤ p) (h2 : p < (start + len) / pageSize) :
    (continueRange s start len).mappedPage p = true := by
  simp [continueRange, h1, h2]

/-- A shadow write at `off` and above leaves backing bytes below `off`
unchanged. -/
lemma shadowWrite_backing_lo (bs : List Nat) :
    ∀ (s : MemState) (off i : Nat), i < off →
      (shadowWrite s off bs).backing i = s.backing i := by
  induction bs with
  | nil => intro s off i h; rfl
  | cons b rest ih =>
      intro s off i h
      rw [shadowWrite, ih (writeByte s off b) (off + 1) i (by omega)]
      simp [writeByte, Nat.ne_of_lt h]

/-- Round trip of the dual mapping: after writing `B` at offset `O`
through the shadow mapping and a continue resolution over a range whose
pages cover `[O, O + B.length)`, a guarded read at `O` returns exactly
`B`. -/
lemma roundtrip_aux (B : List Nat) :
    ∀ (s : MemState) (O start len : Nat),
      (∀ i, i < B.length →
        start / pageSize ≤ (O + i) / pageSize ∧
          (O + i) / pageSize < (start + len) / pageSize) →
      guardedReadBytes (continueRange (shadowWrite s O B) start len) O
          B.length = some B := by
  induction B with
  | nil => intro s O start len h; rfl
  | cons b rest ih =>
      intro s O start len h
      have h0 := h 0 (by simp)
      rw [Nat.add_zero] at h0
      have hcond :
          (continueRange (shadowWrite s O (b :: rest)) start len).mappedPage
            (O / pageSize) = true :=
        continueRange_mappedPage _ start len _ h0.1 h0.2
      have hb :
          (continueRange (shadowWrite s O (b :: rest)) start len).backing O
            = b := by
        rw [continueRange_backing, shadowWrite,
          shadowWrite_backing_lo rest (writeByte s O b) (O + 1) O
            (Nat.lt_succ_self O)]
        simp [writeByte]
      have htail := ih (writeByte s O b) (O + 1) start len (fun i hi => by
        have hstep := h (i + 1) (by simpa using Nat.succ_lt_succ hi)
        have e : O + (i + 1) = O + 1 + i := by omega
        rw [e] at hstep
        exact hstep)
      show guardedReadBytes _ O (rest.length + 1) = _
      rw [guardedReadBytes, hcond]
      simp only [if_true]
      simp only [shadowWrite] at hb ⊢
      rw [htail, hb]
      rfl

/-- Shape of one monitor iteration: the outcome is a continuation, a
panic, or a still-retrying divergence; at most one `read_event` happens,
and exactly one whenever the iteration completes normally. -/
lemma monitorStep_spec (cfg : MonitorConfig) (w : WakeInput) :
    ((monitorStep cfg w).2 = .next ∨
       (∃ m, (monitorStep cfg w).2 = .panicked m) ∨
       (monitorStep cfg w).2 = .diverged) ∧
      countReads (monitorStep cfg w).1 ≤ 1 ∧
      ((monitorStep cfg w).2 = .next →
        countReads (monitorStep cfg w).1 = 1) := by
  rcases hw : w.pollResult with e | n
  · simp [monitorStep, hw, countReads]
  rcases hr : w.revents with _ | r
  · simp [monitorStep, hw, hr, countReads]
  cases hb : r.pollerr
  · rcases hrr : w.readResult with e | ev
    · simp [monitorStep, hw, hr, hb, hrr, countReads]
    · have hd := dispatchEvent_spec cfg w ev
      have h2 : (monitorStep cfg w).2 = (dispatchEvent cfg w ev).2 := by
        simp [monitorStep, hw, hr, hb, hrr]
      have h1 : (monitorStep cfg w).1 =
          .logChecking :: .pollWait :: .readEvent ::
            (dispatchEvent cfg w ev).1 := by
        simp [monitorStep, hw, hr, hb, hrr]
      rw [h1, h2]
      refine ⟨hd.1, ?_, ?_⟩ <;> simp [countReads, hd.2]
  · simp [monitorStep, hw, hr, hb, countReads]

/-! ## Claim theorems -/

/-- C1 counterexample: when the first `uffd_continue` result is the
permanent `Invalid` error, the monitor does not terminate — it logs the
error, retries, and on the second (successful) call proceeds to the next
loop iteration. The claim's "Invalid is propagated as fatal" is false on
the code: the `while let Err` loop retries every error alike. -/
theorem continue_invalid_retried_not_fatal :
    monitorStep demoCfg invalidWake =
      ([.logChecking, .pollWait, .readEvent, .logPagefault,
        .uffdContinue demoVmAddr 16384 true, .logContinueFailed .Invalid,
        .uffdContinue demoVmAddr 16384 true], .next) ∧
      countContinues (monitorStep demoCfg invalidWake).1 = 2 :=
  ⟨rfl, rfl⟩

/-- C1 (amended): for every Minor pagefault, the monitor retries the
failing `uffd_continue` call on every error — the transient `Busy` and the
permanent `Invalid` alike — logging each failure, until a call succeeds;
no continue failure is treated as fatal. For any finite run of errors
followed by a success, the iteration ends with `next` after one
`uffd_continue` call per oracle entry. -/
theorem continue_retry_all_errors (cfg : MonitorConfig) (addr : Nat)
    (errs : List ContinueError) :
    (monitorStep cfg
        (minorWake addr (errs.map Except.error ++ [Except.ok ()]))).2 =
        .next ∧
      countContinues
        (monitorStep cfg
          (minorWake addr (errs.map Except.error ++ [Except.ok ()]))).1 =
        errs.length + 1 := by
  have h := retryContinue_errs_then_ok addr cfg.memSize errs
  constructor
  · simpa [monitorStep, minorWake, dispatchEvent] using h.1
  · simpa [monitorStep, minorWake, dispatchEvent, countReads, countContinues]
      using h.2

/-- C2 counterexample: for a Missing pagefault one page past the region
base (`vm_addr + 4096` with region `[vm_addr, vm_addr + 16384)`), the
monitor zero-fills `[vm_addr + 4096, vm_addr + 4096 + 16384)`: the range
starts at the faulting address, not at the region base, and its end lies
4096 bytes past the registered range's end. -/
theorem missing_zerofill_leaves_region :
    zeropageRanges (monitorStep demoCfg missingWakeOff).1 =
        [(demoVmAddr + 4096, 16384)] ∧
      demoVmAddr + 4096 ≠ demoCfg.vmAddr ∧
      demoVmAddr + 4096 + 16384 > demoCfg.vmAddr + demoCfg.memSize :=
  ⟨rfl, by decide, by decide⟩

/-- C2 (amended): for every Missing pagefault, the monitor performs a
single zero-fill resolution over the range starting at the faulting
address and spanning `mem_size` bytes (which coincides with the registered
range only when the faulting address is the region base, and otherwise
extends past its end), then continues with the next iteration. -/
theorem missing_zerofill_at_fault_addr (cfg : MonitorConfig)
    (w : WakeInput) (n addr : Nat) (r : ReadWrite)
    (hp : w.pollResult = Except.ok n)
    (hr : w.revents = some ⟨false⟩)
    (he : w.readResult = Except.ok (some (.Pagefault .Missing r addr)))
    (hz : w.zeropageOk = true) :
    zeropageRanges (monitorStep cfg w).1 = [(addr, cfg.memSize)] ∧
      (monitorStep cfg w).2 = .next := by
  constructor <;>
    simp [monitorStep, dispatchEvent, hp, hr, he, hz, zeropageRanges]

/-- Witness for C2 (amended) at the concrete wake `missingWakeOff`. -/
theorem missing_zerofill_at_fault_addr_witness :
    zeropageRanges (monitorStep demoCfg missingWakeOff).1 =
        [(demoVmAddr + 4096, demoCfg.memSize)] ∧
      (monitorStep demoCfg missingWakeOff).2 = .next :=
  missing_zerofill_at_fault_addr demoCfg missingWakeOff 1
    (demoVmAddr + 4096) .Read rfl rfl rfl rfl

/-- C3: round-trip fidelity of the dual mapping — writing bytes `B` at
offset `O` through the shadow mapping and then resolving with a continue
action whose pages cover `[O, O + B.length)` makes a guarded read at `O`
return exactly `B`; moreover, in the concrete run with a 16384-byte
region, writing `[1, 2, 3]` at offset 0 through the shadow mapping makes
the guarded read at offset 0 raise a `Minor` fault, the monitor answers it
with one successful `uffd_continue(vm_addr, 16384, true)` and continues,
and the guarded read then returns `[1, 2, 3]`. -/
theorem shadow_write_continue_roundtrip (s : MemState)
    (O start len : Nat) (B : List Nat)
    (hcov : ∀ i, i < B.length →
      start / pageSize ≤ (O + i) / pageSize ∧
        (O + i) / pageSize < (start + len) / pageSize) :
    guardedReadBytes (continueRange (shadowWrite s O B) start len) O
        B.length = some B ∧
      guardedTouch demoMem1 0 = some FaultKind.Minor ∧
      monitorStep demoCfg demoWake =
        ([.logChecking, .pollWait, .readEvent, .logPagefault,
          .uffdContinue demoVmAddr 16384 true], .next) ∧
      guardedReadBytes demoMem2 0 3 = some [1, 2, 3] :=
  ⟨roundtrip_aux B s O start len hcov, rfl, rfl, rfl⟩

/-- Witness for C3 at the concrete demo data: a fresh region, the write
`[1, 2, 3]` at offset 0, a continue resolution over `[0, 16384)`, and the
read of 3 bytes at offset 0. -/
theorem shadow_write_continue_roundtrip_witness :
    guardedReadBytes (continueRange (shadowWrite freshMem 0 [1, 2, 3])
        0 16384) 0 3 = some [1, 2, 3] ∧
      guardedTouch demoMem1 0 = some FaultKind.Minor :=
  ⟨(shadow_write_continue_roundtrip freshMem 0 0 16384 [1, 2, 3]
      (fun i hi => by
        have hi3 : i < 3 := by simpa using hi
        interval_cases i <;> exact ⟨by decide, by decide⟩)).1,
   (shadow_write_continue_roundtrip freshMem 0 0 16384 [1, 2, 3]
      (fun i hi => by
        have hi3 : i < 3 := by simpa using hi
        interval_cases i <;> exact ⟨by decide, by decide⟩)).2.1⟩

/-- C4: the monitor loop never returns normally — every iteration either
continues to the next wait, panics (fatal), or is still inside the
`uffd_continue` retry; a clean `returned` outcome is impossible, at most
one `read_event` happens per iteration, and an iteration that completes
normally reads exactly one event. -/
theorem monitor_loop_never_returns (cfg : MonitorConfig) (w : WakeInput) :
    (monitorStep cfg w).2 ≠ Outcome.returned ∧
      ((monitorStep cfg w).2 = .next ∨
        (∃ m, (monitorStep cfg w).2 = .panicked m) ∨
        (monitorStep cfg w).2 = .diverged) ∧
      countReads (monitorStep cfg w).1 ≤ 1 ∧
      ((monitorStep cfg w).2 = .next →
        countReads (monitorStep cfg w).1 = 1) := by
  obtain ⟨hd, hc, hone⟩ := monitorStep_spec cfg w
  refine ⟨?_, hd, hc, hone⟩
  rcases hd with h | ⟨m, h⟩ | h <;> simp [h]

/-- Witness for C4 at the concrete demo wake. -/
theorem monitor_loop_never_returns_witness :
    (monitorStep demoCfg demoWake).2 ≠ Outcome.returned ∧
      ((monitorStep demoCfg demoWake).2 = .next ∨
        (∃ m, (monitorStep demoCfg demoWake).2 = .panicked m) ∨
        (monitorStep demoCfg demoWake).2 = .diverged) ∧
      countReads (monitorStep demoCfg demoWake).1 ≤ 1 ∧
      ((monitorStep demoCfg demoWake).2 = .next →
        countReads (monitorStep demoCfg demoWake).1 = 1) :=
  monitor_loop_never_returns demoCfg demoWake

/-- C5: every readable event that is neither a `Pagefault` nor a `Remove`
(`Unmap`, `Remap`, `Fork`, or an empty read) hits the catch-all arm and
panics the monitor instead of being ignored. -/
theorem unplanned_event_is_fatal (cfg : MonitorConfig) (w : WakeInput)
    (n : Nat) (ev : Option Event)
    (hp : w.pollResult = Except.ok n)
    (hr : w.revents = some ⟨false⟩)
    (he : w.readResult = Except.ok ev)
    (hun : isPlannedEvent ev = false) :
    (monitorStep cfg w).2 = .panicked .unexpectedEvent := by
  cases ev with
  | none => simp [monitorStep, dispatchEvent, hp, hr, he]
  | some e =>
      cases e with
      | Pagefault k r a => simp [isPlannedEvent] at hun
      | Remove a b => simp [isPlannedEvent] at hun
      | Unmap a b => simp [monitorStep, dispatchEvent, hp, hr, he]
      | Remap a b l => simp [monitorStep, dispatchEvent, hp, hr, he]
      | Fork => simp [monitorStep, dispatchEvent, hp, hr, he]

/-- Witness for C5 at a concrete `Fork` event. -/
theorem unplanned_event_is_fatal_witness :
    (monitorStep demoCfg forkWake).2 = .panicked .unexpectedEvent :=
  unplanned_event_is_fatal demoCfg forkWake 1 (some .Fork) rfl rfl rfl rfl

/-- C6: a `Remove` event produces no resolution action — the whole
iteration is the log line, the wait, the read and the removal log — and
the monitor goes on to the next wait iteration. -/
theorem remove_event_no_action (cfg : MonitorConfig) (w : WakeInput)
    (n a b : Nat)
    (hp : w.pollResult = Except.ok n)
    (hr : w.revents = some ⟨false⟩)
    (he : w.readResult = Except.ok (some (.Remove a b))) :
    (monitorStep cfg w).2 = .next ∧
      (monitorStep cfg w).1.filter isResolutionAction = [] ∧
      (monitorStep cfg w).1 =
        [.logChecking, .pollWait, .readEvent, .logRemove] := by
  refine ⟨?_, ?_, ?_⟩ <;>
    simp [monitorStep, dispatchEvent, hp, hr, he, isResolutionAction]

/-- Witness for C6 at a concrete `Remove` event over the registered
range. -/
theorem remove_event_no_action_witness :
    (monitorStep demoCfg removeWake).2 = .next ∧
      (monitorStep demoCfg removeWake).1.filter isResolutionAction = [] ∧
      (monitorStep demoCfg removeWake).1 =
        [.logChecking, .pollWait, .readEvent, .logRemove] :=
  remove_event_no_action demoCfg removeWake 1 demoVmAddr
    (demoVmAddr + 16384) rfl rfl rfl

/-- C7: when the wake's revents carry `POLLERR`, the monitor panics
before calling `read_event`: the iteration's trace is just the log line
and the wait, with zero reads. -/
theorem pollerr_fatal_before_read (cfg : MonitorConfig) (w : WakeInput)
    (n : Nat)
    (hp : w.pollResult = Except.ok n)
    (hr : w.revents = some ⟨true⟩) :
    (monitorStep cfg w).2 = .panicked .pollReturnedPollerr ∧
      countReads (monitorStep cfg w).1 = 0 ∧
      (monitorStep cfg w).1 = [.logChecking, .pollWait] := by
  refine ⟨?_, ?_, ?_⟩ <;> simp [monitorStep, hp, hr, countReads]

/-- Witness for C7 at a concrete `POLLERR` wake. -/
theorem pollerr_fatal_before_read_witness :
    (monitorStep demoCfg pollerrWake).2 = .panicked .pollReturnedPollerr ∧
      countReads (monitorStep demoCfg pollerrWake).1 = 0 ∧
      (monitorStep demoCfg pollerrWake).1 = [.logChecking, .pollWait] :=
  pollerr_fatal_before_read demoCfg pollerrWake 1 rfl rfl

/-- C8: `main` requests exactly the register modes
`{Missing, ModeMinor, WriteProtect}` and exactly the feature flags
`{EventRemove, EventRemap, EventFork, EventUnmap, MissingShmem,
MinorShmem, PagefaultFlagWP}`; when the kernel lacks any required
feature, the `create().unwrap()` panics the process right after the
builder step, before registration, before the monitor is spawned and
before any consumer access through either mapping. -/
theorem registration_exact_flags_and_fatal (supported : FeatureFlag → Bool)
    (registerOk : Bool) (f : FeatureFlag)
    (hf : f ∈ requiredFeatures) (hsup : supported f = false) :
    requiredFeatures = specFeatureFlags ∧
      registerModes = specFaultClasses ∧
      mainRun supported registerOk =
        ([.createBacking, .mapShadow, .mapGuarded, .uffdCreate],
         .panicked) ∧
      MainAction.shadowWriteAct ∉ (mainRun supported registerOk).1 ∧
      MainAction.guardedReadAct ∉ (mainRun supported registerOk).1 := by
  have hall : requiredFeatures.all supported = false := by
    cases h : requiredFeatures.all supported
    · rfl
    · exact absurd (List.all_eq_true.mp h f hf) (by simp [hsup])
  have hmain : mainRun supported registerOk =
      ([.createBacking, .mapShadow, .mapGuarded, .uffdCreate],
       .panicked) := by
    simp [mainRun, createUffd, hall]
  refine ⟨rfl, rfl, hmain, ?_, ?_⟩ <;> rw [hmain] <;> decide

/-- Witness for C8 with a kernel supporting no feature at all. -/
theorem registration_exact_flags_and_fatal_witness :
    requiredFeatures = specFeatureFlags ∧
      registerModes = specFaultClasses ∧
      mainRun (fun _ => false) true =
        ([.createBacking, .mapShadow, .mapGuarded, .uffdCreate],
         .panicked) ∧
      MainAction.shadowWriteAct ∉ (mainRun (fun _ => false) true).1 ∧
      MainAction.guardedReadAct ∉ (mainRun (fun _ => false) true).1 :=
  registration_exact_flags_and_fatal (fun _ => false) true .EventRemove
    (by decide) rfl

/-- C9 counterexample: the only access through the staging shadow mapping
in the run is a write by the main (consumer) thread — the thread that also
reads the guarded mapping — and the monitor thread performs no direct
memory access at all, so the shadow mapping is not "owned and written only
by the Fault Monitor" and consumers do not access "only the guarded
mapping". -/
theorem shadow_staged_by_main_thread :
    accessesTo .shadowMapping = [⟨.mainThread, .shadowMapping, true⟩] ∧
      accessesBy .monitorThread = [] :=
  ⟨rfl, rfl⟩

/-- C9 (amended): the staging shadow mapping is created and written by the
main (consumer) thread; the Fault Monitor performs no direct memory access
through any mapping — it creates its own separate mapping inside
`handle_uffd_events` and never touches it. -/
theorem shadow_ownership_amended :
    accessesTo .shadowMapping = [⟨.mainThread, .shadowMapping, true⟩] ∧
      accessesBy .monitorThread = [] ∧
      (⟨.mainThread, .shadowMapping⟩ : MappingCreation) ∈ runCreations ∧
      (⟨.monitorThread, .monitorPrivateMapping⟩ : MappingCreation) ∈
        runCreations ∧
      accessesTo .monitorPrivateMapping = [] := by
  refine ⟨rfl, rfl, by decide, by decide, rfl⟩

/-- C10: a wake that reports the channel readable but whose `read_event`
returns `Ok(None)` falls into the catch-all `match` arm and panics the
monitor; a spurious empty read is not sent back to the wait state. -/
theorem empty_read_is_fatal (cfg : MonitorConfig) (w : WakeInput)
    (n : Nat)
    (hp : w.pollResult = Except.ok n)
    (hr : w.revents = some ⟨false⟩)
    (he : w.readResult = Except.ok none) :
    (monitorStep cfg w).2 = .panicked .unexpectedEvent := by
  simp [monitorStep, dispatchEvent, hp, hr, he]

/-- Witness for C10 at a concrete empty read. -/
theorem empty_read_is_fatal_witness :
    (monitorStep demoCfg emptyReadWake).2 = .panicked .unexpectedEvent :=
  empty_read_is_fatal demoCfg emptyReadWake 1 rfl rfl rfl

end Uffd
